import Mathlib

/-!
The polymorphic handle layer of think.hdf5: `hdf5_impl.hpp`

A shallow embedding of `src/hdf5pp/src/hdf5_impl.hpp`.

* The storage engine (the HDF5 C library) is an external collaborator.  It is
  modelled as a record `Engine σ` of primitives over an arbitrary engine state
  `σ`; every primitive may read and change the state.
* A `World σ` carries the engine state together with the log of the primitive
  calls made so far, so that "which primitive was called, with which
  arguments" is observable.
* C++ `throw std::runtime_error(msg)` is `Exn.runtime_error msg`; the state is
  kept when an exception propagates.
* `hid_t`, `herr_t`, `ssize_t` are signed machine integers (`Int`); `hsize_t`
  and `size_t` are unsigned (`Nat`).  Narrowing conversions are written with an
  explicit modulus.
-/

namespace think
namespace hdf5

/-! ## Access flags (`to_hdf5_access`) -/

/-- The six values of the `Access` enumeration, declared in `hdf5.hpp` (absent
from the sources): taken as parameters.  An `int` is represented by its
two's-complement bit pattern, on which `&` and `|` act bit by bit. -/
structure AccessConsts where
  excl : Nat
  trunc : Nat
  rdonly : Nat
  rdrw : Nat
  debug : Nat
  create : Nat

/-- The six `H5F_ACC_*` engine flags of `<hdf5.h>` (absent from the sources):
taken as parameters.  A word is represented by its bit pattern. -/
structure H5FConsts where
  H5F_ACC_EXCL : Nat
  H5F_ACC_TRUNC : Nat
  H5F_ACC_RDONLY : Nat
  H5F_ACC_RDWR : Nat
  H5F_ACC_DEBUG : Nat
  H5F_ACC_CREAT : Nat

/-- The function `hdf5::to_hdf5_access` (lines 11-20).  `if ( access & c )` tests
the conjunction against zero; `retval |= f` is a bitwise or. -/
def to_hdf5_access (A : AccessConsts) (F : H5FConsts) (access : Nat) : Nat :=
  let retval := 0
  let retval := if access &&& A.excl ≠ 0 then retval ||| F.H5F_ACC_EXCL else retval
  let retval := if access &&& A.trunc ≠ 0 then retval ||| F.H5F_ACC_TRUNC else retval
  let retval := if access &&& A.rdonly ≠ 0 then retval ||| F.H5F_ACC_RDONLY else retval
  let retval := if access &&& A.rdrw ≠ 0 then retval ||| F.H5F_ACC_RDWR else retval
  let retval := if access &&& A.debug ≠ 0 then retval ||| F.H5F_ACC_DEBUG else retval
  let retval := if access &&& A.create ≠ 0 then retval ||| F.H5F_ACC_CREAT else retval
  retval

/-- The engine flag contributed by one `Access` flag: `f` when the mask shares a
set bit with `c`, nothing otherwise. -/
def flagPart (access c f : Nat) : Nat :=
  if access &&& c ≠ 0 then f else 0


/-! ## Engine interface -/

/-- Signed 64-bit identifier of the engine (`hid_t`). -/
abbrev hid_t := Int
/-- Signed status code of the engine (`herr_t`): negative is failure. -/
abbrev herr_t := Int
/-- Signed 64-bit size (`ssize_t`). -/
abbrev ssize_t := Int
/-- Unsigned 64-bit size of the engine (`hsize_t`). -/
abbrev hsize_t := Nat
/-- Unsigned 64-bit size (`size_t`). -/
abbrev size_t := Nat
/-- Contents of a caller-supplied byte buffer (`char*`, `void*`). -/
abbrev CBuf := List Nat

/-- Modelled from the spec: the runtime kinds of `H5I_type_t` in `<hdf5.h>` (absent)
that the source names, File, Container (group), Datatype, Dataspace, Dataset,
Attribute, Reference; `H5I_OTHER t` stands for every further token `t` of the
enumeration (the spec's Unknown).  `ObjType::EEnum` of `hdf5.hpp` (absent) is
its mirror, so the `static_cast` of `get_object_type` is the identity. -/
inductive H5I_type_t where
  | H5I_FILE
  | H5I_GROUP
  | H5I_DATATYPE
  | H5I_DATASPACE
  | H5I_DATASET
  | H5I_ATTR
  | H5I_REFERENCE
  | H5I_OTHER (token : Int)
  deriving DecidableEq

/-- Modelled from the spec: the object types of `H5O_type_t` in `<hdf5.h>` (absent)
that the object-info call can report: group, dataset, named datatype, unknown;
`H5O_TYPE_OTHER t` stands for every further token. -/
inductive H5O_type_t where
  | H5O_TYPE_UNKNOWN
  | H5O_TYPE_GROUP
  | H5O_TYPE_DATASET
  | H5O_TYPE_NAMED_DATATYPE
  | H5O_TYPE_OTHER (token : Int)
  deriving DecidableEq

/-- The field of `H5G_info_t` the source reads. -/
structure H5G_info_t where
  nlinks : hsize_t
  deriving DecidableEq

/-- The fields of `H5O_info_t` the source reads. -/
structure H5O_info_t where
  type : H5O_type_t
  num_attrs : hsize_t
  deriving DecidableEq

/-- The constant `H5S_ALL` of `<hdf5.h>`: the full extent. -/
def H5S_ALL : hid_t := 0
/-- The constant `H5P_DEFAULT` of `<hdf5.h>`: default properties. -/
def H5P_DEFAULT : hid_t := 0

/-- A C++ exception: the source throws only `std::runtime_error`. -/
inductive Exn where
  | runtime_error (what : String)
  deriving DecidableEq

/-- One call of an engine primitive with its arguments.  The arguments that the
source always passes as the same constant (`"."`, `H5_INDEX_NAME`,
`H5_ITER_INC`, `H5T_DIR_DEFAULT`, the trailing `H5P_DEFAULT` of the by-name and
by-index calls) are left out.  A null `char*` is `none`. -/
inductive Call where
  | H5Iget_type (id : hid_t)
  | H5Aget_name (id : hid_t) (size : size_t) (name : Option CBuf)
  | H5Iget_name (id : hid_t) (name : Option CBuf) (size : size_t)
  | H5Gclose (id : hid_t)
  | H5Dclose (id : hid_t)
  | H5Fclose (id : hid_t)
  | H5Aclose (id : hid_t)
  | H5Sclose (id : hid_t)
  | H5Tclose (id : hid_t)
  | H5Gget_info (loc_id : hid_t)
  | H5Lget_name_by_idx (loc_id : hid_t) (idx : hsize_t) (name : Option CBuf) (size : size_t)
  | H5Oget_info_by_name (loc_id : hid_t) (name : CBuf)
  | H5Gopen2 (loc_id : hid_t) (name : CBuf)
  | H5Dopen2 (loc_id : hid_t) (name : CBuf)
  | H5Oget_info (loc_id : hid_t)
  | H5Aget_type (id : hid_t)
  | H5Dget_type (id : hid_t)
  | H5Tget_native_type (id : hid_t)
  | H5Tget_size (id : hid_t)
  | H5Aget_space (id : hid_t)
  | H5Dget_space (id : hid_t)
  | H5Aread (id : hid_t) (mem_type : hid_t) (buf : CBuf)
  | H5Dread (id : hid_t) (mem_type : hid_t) (mem_space : hid_t) (file_space : hid_t)
      (plist : hid_t) (buf : CBuf)
  deriving DecidableEq

/-- The storage engine: each primitive reads the engine state, answers, and
leaves a new state.  Out-parameters (`name`, `buf`, the info records) are
returned next to the status: for a destination buffer, its bytes after the call
(of no meaning when the destination was null). -/
structure Engine (σ : Type) where
  H5Iget_type : hid_t → σ → H5I_type_t × σ
  H5Aget_name : hid_t → size_t → Option CBuf → σ → (ssize_t × CBuf) × σ
  H5Iget_name : hid_t → Option CBuf → size_t → σ → (ssize_t × CBuf) × σ
  H5Gclose : hid_t → σ → herr_t × σ
  H5Dclose : hid_t → σ → herr_t × σ
  H5Fclose : hid_t → σ → herr_t × σ
  H5Aclose : hid_t → σ → herr_t × σ
  H5Sclose : hid_t → σ → herr_t × σ
  H5Tclose : hid_t → σ → herr_t × σ
  H5Gget_info : hid_t → σ → (herr_t × H5G_info_t) × σ
  H5Lget_name_by_idx : hid_t → hsize_t → Option CBuf → size_t → σ → (ssize_t × CBuf) × σ
  H5Oget_info_by_name : hid_t → CBuf → σ → (herr_t × H5O_info_t) × σ
  H5Gopen2 : hid_t → CBuf → σ → hid_t × σ
  H5Dopen2 : hid_t → CBuf → σ → hid_t × σ
  H5Oget_info : hid_t → σ → (herr_t × H5O_info_t) × σ
  H5Aget_type : hid_t → σ → hid_t × σ
  H5Dget_type : hid_t → σ → hid_t × σ
  H5Tget_native_type : hid_t → σ → hid_t × σ
  H5Tget_size : hid_t → σ → size_t × σ
  H5Aget_space : hid_t → σ → hid_t × σ
  H5Dget_space : hid_t → σ → hid_t × σ
  H5Aread : hid_t → hid_t → CBuf → σ → (herr_t × CBuf) × σ
  H5Dread : hid_t → hid_t → hid_t → hid_t → hid_t → CBuf → σ → (herr_t × CBuf) × σ

/-- The engine state together with the log of primitive calls, oldest first. -/
structure World (σ : Type) where
  st : σ
  log : List Call
  deriving DecidableEq

/-- A computation of the source: it runs against a world and ends with a value
or a thrown exception; the world reached is kept in both cases. -/
def M (σ : Type) (α : Type) : Type := World σ → Except Exn α × World σ

/-- Sequencing: an exception of the first part skips the rest. -/
def M.bind {σ α β : Type} (x : M σ α) (f : α → M σ β) : M σ β := fun w =>
  match x w with
  | (Except.ok a, w1) => f a w1
  | (Except.error e, w1) => (Except.error e, w1)

/-- Normal completion with a value. -/
def M.pure {σ α : Type} (a : α) : M σ α := fun w => (Except.ok a, w)

/-- The C++ statement `throw e`. -/
def M.throw {σ α : Type} (e : Exn) : M σ α := fun w => (Except.error e, w)

instance (σ : Type) : Monad (M σ) where
  pure := M.pure
  bind := M.bind

/-- Calling a primitive: the engine answers from the current state, the state
advances and the call is appended to the log. -/
def prim {σ α : Type} (c : Call) (f : σ → α × σ) : M σ α := fun w =>
  (Except.ok (f w.st).1, { st := (f w.st).2, log := w.log ++ [c] })

/-- Conversion of an unsigned 64-bit value to `ssize_t` (two's complement). -/
def to_ssize_t (n : Nat) : ssize_t := ((n + 2 ^ 63) % 2 ^ 64 : Nat) - 2 ^ 63

/-- Conversion `static_cast<int>` of an unsigned 64-bit value, kept as an
integer: wrap-around modulo 2^32 (two's complement). -/
def to_int (n : Nat) : Int := ((n + 2 ^ 31) % 2 ^ 32 : Nat) - 2 ^ 31

/-- Conversion of a signed 64-bit value to `hsize_t` (modulo 2^64). -/
def to_hsize_t (i : Int) : hsize_t := (i % 2 ^ 64).toNat

/-! ## The functions of `hdf5_impl.hpp` -/

/-- The function `hdf5::get_object_type` (lines 43-45). -/
def get_object_type {σ : Type} (E : Engine σ) (id : hid_t) : M σ H5I_type_t :=
  prim (Call.H5Iget_type id) (E.H5Iget_type id)

/-- The function `hdf5::get_name` (lines 46-51); the value is the primitive's result
together with the buffer as the primitive left it. -/
def get_name {σ : Type} (E : Engine σ) (id : hid_t) (name : Option CBuf) (size : size_t) :
    M σ (ssize_t × CBuf) := do
  if (← get_object_type E id) = H5I_type_t.H5I_ATTR then
    prim (Call.H5Aget_name id size name) (E.H5Aget_name id size name)
  else
    prim (Call.H5Iget_name id name size) (E.H5Iget_name id name size)

/-- The function `hdf5::close_object` (lines 52-72). -/
def close_object {σ : Type} (E : Engine σ) (obj : hid_t) : M σ herr_t := do
  match ← prim (Call.H5Iget_type obj) (E.H5Iget_type obj) with
  | H5I_type_t.H5I_GROUP => prim (Call.H5Gclose obj) (E.H5Gclose obj)
  | H5I_type_t.H5I_DATASET => prim (Call.H5Dclose obj) (E.H5Dclose obj)
  | H5I_type_t.H5I_FILE => prim (Call.H5Fclose obj) (E.H5Fclose obj)
  | H5I_type_t.H5I_ATTR => prim (Call.H5Aclose obj) (E.H5Aclose obj)
  | H5I_type_t.H5I_DATASPACE => prim (Call.H5Sclose obj) (E.H5Sclose obj)
  | H5I_type_t.H5I_DATATYPE => prim (Call.H5Tclose obj) (E.H5Tclose obj)
  | H5I_type_t.H5I_REFERENCE => pure 0
  | _ => pure (-1)

/-- The function `hdf5::get_num_children` (lines 73-83). -/
def get_num_children {σ : Type} (E : Engine σ) (loc_id : hid_t) : M σ ssize_t := do
  let (retval, src_info) ← prim (Call.H5Gget_info loc_id) (E.H5Gget_info loc_id)
  if retval ≥ 0 then
    pure (to_ssize_t src_info.nlinks)
  else
    M.throw (Exn.runtime_error "get_num_children failed.")

/-- The function `hdf5::get_child_name` (lines 84-90).  Line 88 is the expression
statement `std::runtime_error("H5Lget_name_by_idx failed");` without `throw`: it
builds an exception object and drops it. -/
def get_child_name {σ : Type} (E : Engine σ) (loc_id : hid_t) (idx : ssize_t)
    (name : Option CBuf) (size : size_t) : M σ (ssize_t × CBuf) := do
  let (name_len, name) ←
    prim (Call.H5Lget_name_by_idx loc_id (to_hsize_t idx) name size)
      (E.H5Lget_name_by_idx loc_id (to_hsize_t idx) name size)
  if name_len < 0 then
    let _dropped := Exn.runtime_error "H5Lget_name_by_idx failed"
    pure ()
  pure (name_len, name)

/-- The function `hdf5::open_child` (lines 91-143).  The buffer `name` has
`name_len+1` bytes, all zero, before the second lookup; `name_C` and
`name.c_str()` both denote its contents after that lookup. -/
def open_child {σ : Type} (E : Engine σ) (loc_id : hid_t) (idx : hsize_t) : M σ hid_t := do
  let (name_len, _) ←
    prim (Call.H5Lget_name_by_idx loc_id idx none 0) (E.H5Lget_name_by_idx loc_id idx none 0)
  if name_len < 0 then
    M.throw (Exn.runtime_error "H5Lget_name_by_idx failed")
  else
    let name_C : CBuf := List.replicate (name_len.toNat + 1) 0
    let (name_len, name) ←
      prim (Call.H5Lget_name_by_idx loc_id idx (some name_C) (name_len.toNat + 1))
        (E.H5Lget_name_by_idx loc_id idx (some name_C) (name_len.toNat + 1))
    if name_len < 0 then
      M.throw (Exn.runtime_error "H5Lget_name_by_idx failed")
    else
      let (ret_value, objinfo) ←
        prim (Call.H5Oget_info_by_name loc_id name) (E.H5Oget_info_by_name loc_id name)
      if ret_value < 0 then
        M.throw (Exn.runtime_error "H5Oget_info_by_name failed")
      else
        match objinfo.type with
        | H5O_type_t.H5O_TYPE_GROUP =>
          let group_id ← prim (Call.H5Gopen2 loc_id name) (E.H5Gopen2 loc_id name)
          if group_id < 0 then
            M.throw (Exn.runtime_error "H5Gopen2 failed")
          else
            pure group_id
        | H5O_type_t.H5O_TYPE_DATASET =>
          let dataset_id ← prim (Call.H5Dopen2 loc_id name) (E.H5Dopen2 loc_id name)
          if dataset_id < 0 then
            M.throw (Exn.runtime_error "H5Dopen2 failed")
          else
            pure dataset_id
        | _ => M.throw (Exn.runtime_error "Unknown type of object")

/-- The function `hdf5::get_num_attrs` (lines 144-151). -/
def get_num_attrs {σ : Type} (E : Engine σ) (loc_id : hid_t) : M σ ssize_t := do
  let (ret, oinfo) ← prim (Call.H5Oget_info loc_id) (E.H5Oget_info loc_id)
  if ret < 0 then
    M.throw (Exn.runtime_error "H5Oget_info failed")
  else
    pure (to_int oinfo.num_attrs)

/-- The function `hdf5::open_datatype` (lines 157-167). -/
def open_datatype {σ : Type} (E : Engine σ) (obj_id : hid_t) : M σ hid_t := do
  match ← get_object_type E obj_id with
  | H5I_type_t.H5I_ATTR => prim (Call.H5Aget_type obj_id) (E.H5Aget_type obj_id)
  | H5I_type_t.H5I_DATASET => prim (Call.H5Dget_type obj_id) (E.H5Dget_type obj_id)
  | _ => M.throw (Exn.runtime_error "type does not have a datatype")

/-- The function `hdf5::get_datatype_native_size` (lines 195-213). -/
def get_datatype_native_size {σ : Type} (E : Engine σ) (type_id : hid_t) : M σ ssize_t := do
  let native_type ← prim (Call.H5Tget_native_type type_id) (E.H5Tget_native_type type_id)
  if native_type < 0 then
    M.throw (Exn.runtime_error "H5Tget_native_type failed")
  else
    let type_size ← prim (Call.H5Tget_size native_type) (E.H5Tget_size native_type)
    if type_size = 0 then
      M.throw (Exn.runtime_error "H5Tget_size failed")
    else
      let closed ← prim (Call.H5Tclose native_type) (E.H5Tclose native_type)
      if closed < 0 then
        M.throw (Exn.runtime_error "H5Tclose(native_type) failed")
      else
        pure (to_ssize_t type_size)

/-- The function `hdf5::open_dataspace` (lines 229-239). -/
def open_dataspace {σ : Type} (E : Engine σ) (obj_id : hid_t) : M σ hid_t := do
  match ← get_object_type E obj_id with
  | H5I_type_t.H5I_ATTR => prim (Call.H5Aget_space obj_id) (E.H5Aget_space obj_id)
  | H5I_type_t.H5I_DATASET => prim (Call.H5Dget_space obj_id) (E.H5Dget_space obj_id)
  | _ => M.throw (Exn.runtime_error "type does not have a dataspace")

/-- The function `hdf5::read_data` (lines 248-258); the value is the primitive's
status together with the destination buffer as the primitive left it. -/
def read_data {σ : Type} (E : Engine σ) (obj_id : hid_t) (datatype_id : hid_t) (buf : CBuf) :
    M σ (herr_t × CBuf) := do
  match ← get_object_type E obj_id with
  | H5I_type_t.H5I_ATTR =>
    prim (Call.H5Aread obj_id datatype_id buf) (E.H5Aread obj_id datatype_id buf)
  | H5I_type_t.H5I_DATASET =>
    prim (Call.H5Dread obj_id datatype_id H5S_ALL H5S_ALL H5P_DEFAULT buf)
      (E.H5Dread obj_id datatype_id H5S_ALL H5S_ALL H5P_DEFAULT buf)
  | _ => M.throw (Exn.runtime_error "type does not have data")

/-! ## Reference engines

Two small executable engines, used to run the functions above on concrete
inputs: a read-only file made of groups, datasets and named datatypes, and a
handle table that tracks which identifiers are open. -/

/-- An object stored in a file, after section 3 of the specification: a
container owns named children; a child may be of any type the object-info call
reports. -/
inductive Node where
  | group (links : List (CBuf × Node))
  | dataset
  | named_datatype
  | unknown

/-- The state of the file engine: the objects behind the open identifiers;
identifier `i` denotes `objects[i]`. -/
structure FileState where
  objects : List Node

/-- The object an identifier denotes. -/
def FileState.nodeAt (s : FileState) (id : hid_t) : Option Node :=
  if 0 ≤ id then s.objects[id.toNat]? else none

/-- The links of the container an identifier denotes. -/
def FileState.linksAt (s : FileState) (id : hid_t) : Option (List (CBuf × Node)) :=
  match s.nodeAt id with
  | some (Node.group links) => some links
  | _ => none

/-- The runtime kind of an identifier that denotes a node. -/
def Node.kind : Node → H5I_type_t
  | Node.group _ => H5I_type_t.H5I_GROUP
  | Node.dataset => H5I_type_t.H5I_DATASET
  | Node.named_datatype => H5I_type_t.H5I_DATATYPE
  | Node.unknown => H5I_type_t.H5I_OTHER (-1)

/-- The object type the object-info call reports for a node. -/
def Node.otype : Node → H5O_type_t
  | Node.group _ => H5O_type_t.H5O_TYPE_GROUP
  | Node.dataset => H5O_type_t.H5O_TYPE_DATASET
  | Node.named_datatype => H5O_type_t.H5O_TYPE_NAMED_DATATYPE
  | Node.unknown => H5O_type_t.H5O_TYPE_UNKNOWN

/-- The characters of a C string: the bytes before the first NUL. -/
def cstr (b : CBuf) : CBuf := b.takeWhile (fun c => c ≠ 0)

/-- The child a name designates among the links of a container. -/
def findLink (links : List (CBuf × Node)) (name : CBuf) : Option Node :=
  (links.find? (fun l => l.1 = name)).map Prod.snd

/-- Writing a name into a destination of capacity `size`: at most `size - 1`
characters, then a NUL; the remaining bytes of the destination stay. -/
def fillName (dst : CBuf) (size : size_t) (name : CBuf) : CBuf :=
  if size = 0 then dst
  else name.take (size - 1) ++ [0] ++ dst.drop (min (size - 1) name.length + 1)

/-- The name-by-index primitive of the file engine: the length of the name of
child `idx`, negative when the identifier is no container or the index is out
of range. -/
def fileLookupName (loc_id : hid_t) (idx : hsize_t) (dst : Option CBuf) (size : size_t)
    (s : FileState) : (ssize_t × CBuf) × FileState :=
  match s.linksAt loc_id with
  | some links =>
    match links[idx]? with
    | some l => (((l.1.length : Int), fillName (dst.getD []) size l.1), s)
    | none => ((-1, dst.getD []), s)
  | none => ((-1, dst.getD []), s)

/-- The object-info-by-name primitive of the file engine. -/
def fileInfoByName (loc_id : hid_t) (name : CBuf) (s : FileState) :
    (herr_t × H5O_info_t) × FileState :=
  match s.linksAt loc_id with
  | some links =>
    match findLink links (cstr name) with
    | some nd => ((0, { type := nd.otype, num_attrs := 0 }), s)
    | none => ((-1, { type := H5O_type_t.H5O_TYPE_UNKNOWN, num_attrs := 0 }), s)
  | none => ((-1, { type := H5O_type_t.H5O_TYPE_UNKNOWN, num_attrs := 0 }), s)

/-- The open-by-name primitives of the file engine: the child is opened under
the next free identifier when it has the wanted object type. -/
def fileOpen (want : H5O_type_t) (loc_id : hid_t) (name : CBuf) (s : FileState) :
    hid_t × FileState :=
  match s.linksAt loc_id with
  | some links =>
    match findLink links (cstr name) with
    | some nd =>
      if nd.otype = want then ((s.objects.length : Int), { objects := s.objects ++ [nd] })
      else (-1, s)
    | none => (-1, s)
  | none => (-1, s)

/-- The file engine.  The primitives this read-only hierarchy does not serve
report failure. -/
def fileEngine : Engine FileState where
  H5Iget_type := fun id s =>
    match s.nodeAt id with
    | some nd => (nd.kind, s)
    | none => (H5I_type_t.H5I_OTHER (-1), s)
  H5Aget_name := fun _ _ dst s => ((-1, dst.getD []), s)
  H5Iget_name := fun _ dst _ s => ((-1, dst.getD []), s)
  H5Gclose := fun _ s => (-1, s)
  H5Dclose := fun _ s => (-1, s)
  H5Fclose := fun _ s => (-1, s)
  H5Aclose := fun _ s => (-1, s)
  H5Sclose := fun _ s => (-1, s)
  H5Tclose := fun _ s => (-1, s)
  H5Gget_info := fun loc_id s =>
    match s.linksAt loc_id with
    | some links => ((0, { nlinks := links.length }), s)
    | none => ((-1, { nlinks := 0 }), s)
  H5Lget_name_by_idx := fileLookupName
  H5Oget_info_by_name := fileInfoByName
  H5Gopen2 := fileOpen H5O_type_t.H5O_TYPE_GROUP
  H5Dopen2 := fileOpen H5O_type_t.H5O_TYPE_DATASET
  H5Oget_info := fun _ s => ((-1, { type := H5O_type_t.H5O_TYPE_UNKNOWN, num_attrs := 0 }), s)
  H5Aget_type := fun _ s => (-1, s)
  H5Dget_type := fun _ s => (-1, s)
  H5Tget_native_type := fun _ s => (-1, s)
  H5Tget_size := fun _ s => (0, s)
  H5Aget_space := fun _ s => (-1, s)
  H5Dget_space := fun _ s => (-1, s)
  H5Aread := fun _ _ buf s => ((-1, buf), s)
  H5Dread := fun _ _ _ _ _ buf s => ((-1, buf), s)

/-- The names of a container are pairwise different and hold no NUL. -/
def WellFormedLinks (links : List (CBuf × Node)) : Prop :=
  (links.map Prod.fst).Nodup ∧ ∀ l ∈ links, 0 ∉ l.1

/-- The handle-table engine.  Its state is the list of open identifiers.
`kind` gives the runtime kind of every identifier, `size` is what the size
query answers, `attrs` the attribute count of the object-info query.  A derived
identifier (datatype, dataspace, native type) is a fresh one, opened; a release
succeeds on an open identifier and closes it; a read succeeds and leaves one
byte 42 at the head of the destination. -/
def tableEngine (kind : hid_t → H5I_type_t) (size : size_t) (attrs : hsize_t) :
    Engine (List hid_t) where
  H5Iget_type := fun id s => (kind id, s)
  H5Aget_name := fun _ _ dst s => ((5, dst.getD []), s)
  H5Iget_name := fun _ dst _ s => ((-1, dst.getD []), s)
  H5Gclose := fun id s => if id ∈ s then (0, s.erase id) else (-1, s)
  H5Dclose := fun id s => if id ∈ s then (0, s.erase id) else (-1, s)
  H5Fclose := fun id s => if id ∈ s then (0, s.erase id) else (-1, s)
  H5Aclose := fun id s => if id ∈ s then (0, s.erase id) else (-1, s)
  H5Sclose := fun id s => if id ∈ s then (0, s.erase id) else (-1, s)
  H5Tclose := fun id s => if id ∈ s then (0, s.erase id) else (-1, s)
  H5Gget_info := fun _ s => ((0, { nlinks := 0 }), s)
  H5Lget_name_by_idx := fun _ _ dst _ s => ((-1, dst.getD []), s)
  H5Oget_info_by_name := fun _ _ s =>
    ((-1, { type := H5O_type_t.H5O_TYPE_UNKNOWN, num_attrs := 0 }), s)
  H5Gopen2 := fun _ _ s => (-1, s)
  H5Dopen2 := fun _ _ s => (-1, s)
  H5Oget_info := fun id s =>
    if id ∈ s then ((0, { type := H5O_type_t.H5O_TYPE_DATASET, num_attrs := attrs }), s)
    else ((-1, { type := H5O_type_t.H5O_TYPE_UNKNOWN, num_attrs := 0 }), s)
  H5Aget_type := fun _ s => (s.foldl max 0 + 1, (s.foldl max 0 + 1) :: s)
  H5Dget_type := fun _ s => (s.foldl max 0 + 1, (s.foldl max 0 + 1) :: s)
  H5Tget_native_type := fun id s =>
    if id ∈ s then (s.foldl max 0 + 1, (s.foldl max 0 + 1) :: s) else (-1, s)
  H5Tget_size := fun _ s => (size, s)
  H5Aget_space := fun _ s => (s.foldl max 0 + 1, (s.foldl max 0 + 1) :: s)
  H5Dget_space := fun _ s => (s.foldl max 0 + 1, (s.foldl max 0 + 1) :: s)
  H5Aread := fun _ _ buf s => ((0, 42 :: buf.drop 1), s)
  H5Dread := fun _ _ _ _ _ buf s => ((0, 42 :: buf.drop 1), s)

/-- A kind assignment for examples: the identifier tells the kind. -/
def kindOfId (id : hid_t) : H5I_type_t :=
  if id = 1 then H5I_type_t.H5I_FILE
  else if id = 2 then H5I_type_t.H5I_GROUP
  else if id = 3 then H5I_type_t.H5I_DATATYPE
  else if id = 4 then H5I_type_t.H5I_DATASPACE
  else if id = 5 then H5I_type_t.H5I_DATASET
  else if id = 6 then H5I_type_t.H5I_ATTR
  else if id = 7 then H5I_type_t.H5I_REFERENCE
  else H5I_type_t.H5I_OTHER id

/-! ## Lemmas for `to_hdf5_access` -/

theorem or_eq_zero_iff_both (a b : Nat) : a ||| b = 0 ↔ a = 0 ∧ b = 0 := by
  constructor
  · intro h
    constructor
    · apply Nat.eq_of_testBit_eq
      intro i
      have := congrArg (fun n => Nat.testBit n i) h
      simp [Nat.testBit_or] at this
      simp [this.1]
    · apply Nat.eq_of_testBit_eq
      intro i
      have := congrArg (fun n => Nat.testBit n i) h
      simp [Nat.testBit_or] at this
      simp [this.2]
  · rintro ⟨rfl, rfl⟩
    rfl

theorem flagPart_or (a b c f : Nat) :
    flagPart (a ||| b) c f = flagPart a c f ||| flagPart b c f := by
  unfold flagPart
  have hd : (a ||| b) &&& c = (a &&& c) ||| (b &&& c) := Nat.and_distrib_right a b c
  by_cases ha : a &&& c = 0 <;> by_cases hb : b &&& c = 0 <;>
    simp [hd, or_eq_zero_iff_both, ha, hb]

theorem to_hdf5_access_eq_parts (A : AccessConsts) (F : H5FConsts) (access : Nat) :
    to_hdf5_access A F access =
      flagPart access A.excl F.H5F_ACC_EXCL ||| flagPart access A.trunc F.H5F_ACC_TRUNC
        ||| flagPart access A.rdonly F.H5F_ACC_RDONLY ||| flagPart access A.rdrw F.H5F_ACC_RDWR
        ||| flagPart access A.debug F.H5F_ACC_DEBUG ||| flagPart access A.create F.H5F_ACC_CREAT := by
  unfold to_hdf5_access flagPart
  by_cases h1 : access &&& A.excl = 0 <;> by_cases h2 : access &&& A.trunc = 0 <;>
  by_cases h3 : access &&& A.rdonly = 0 <;> by_cases h4 : access &&& A.rdrw = 0 <;>
  by_cases h5 : access &&& A.debug = 0 <;> by_cases h6 : access &&& A.create = 0 <;>
    simp [h1, h2, h3, h4, h5, h6]

/-- C10: `to_hdf5_access` maps a bitwise or of masks to the bitwise or of the
results, maps the empty mask to 0, and its result is the or of the engine flags
of exactly those `Access` flags that share a set bit with the input; this holds
for any values of the six `Access` constants and of the six engine flags. -/
theorem to_hdf5_access_or_hom (A : AccessConsts) (F : H5FConsts) (a b : Nat) :
    to_hdf5_access A F (a ||| b) = to_hdf5_access A F a ||| to_hdf5_access A F b
    ∧ to_hdf5_access A F 0 = 0
    ∧ to_hdf5_access A F a =
        (if a &&& A.excl ≠ 0 then F.H5F_ACC_EXCL else 0)
          ||| (if a &&& A.trunc ≠ 0 then F.H5F_ACC_TRUNC else 0)
          ||| (if a &&& A.rdonly ≠ 0 then F.H5F_ACC_RDONLY else 0)
          ||| (if a &&& A.rdrw ≠ 0 then F.H5F_ACC_RDWR else 0)
          ||| (if a &&& A.debug ≠ 0 then F.H5F_ACC_DEBUG else 0)
          ||| (if a &&& A.create ≠ 0 then F.H5F_ACC_CREAT else 0) := by
  refine ⟨?_, ?_, ?_⟩
  · simp only [to_hdf5_access_eq_parts, flagPart_or]
    ac_rfl
  · simp [to_hdf5_access]
  · exact to_hdf5_access_eq_parts A F a


/-! ## Kind dispatch -/

/-- C1: `close_object` asks the engine for the runtime kind of the handle and
returns exactly the result of the matching release primitive, called once on
that handle (group, dataset, file, attribute, dataspace, datatype); for a
Reference it returns 0 and for every other kind -1, in both cases after the
kind query alone. -/
theorem close_object_dispatch {σ : Type} (E : Engine σ) (obj : hid_t) (w : World σ)
    (k : H5I_type_t) (s1 : σ) (hk : E.H5Iget_type obj w.st = (k, s1)) :
    close_object E obj w =
      match k with
      | H5I_type_t.H5I_GROUP =>
        (Except.ok (E.H5Gclose obj s1).1,
          ⟨(E.H5Gclose obj s1).2, w.log ++ [Call.H5Iget_type obj] ++ [Call.H5Gclose obj]⟩)
      | H5I_type_t.H5I_DATASET =>
        (Except.ok (E.H5Dclose obj s1).1,
          ⟨(E.H5Dclose obj s1).2, w.log ++ [Call.H5Iget_type obj] ++ [Call.H5Dclose obj]⟩)
      | H5I_type_t.H5I_FILE =>
        (Except.ok (E.H5Fclose obj s1).1,
          ⟨(E.H5Fclose obj s1).2, w.log ++ [Call.H5Iget_type obj] ++ [Call.H5Fclose obj]⟩)
      | H5I_type_t.H5I_ATTR =>
        (Except.ok (E.H5Aclose obj s1).1,
          ⟨(E.H5Aclose obj s1).2, w.log ++ [Call.H5Iget_type obj] ++ [Call.H5Aclose obj]⟩)
      | H5I_type_t.H5I_DATASPACE =>
        (Except.ok (E.H5Sclose obj s1).1,
          ⟨(E.H5Sclose obj s1).2, w.log ++ [Call.H5Iget_type obj] ++ [Call.H5Sclose obj]⟩)
      | H5I_type_t.H5I_DATATYPE =>
        (Except.ok (E.H5Tclose obj s1).1,
          ⟨(E.H5Tclose obj s1).2, w.log ++ [Call.H5Iget_type obj] ++ [Call.H5Tclose obj]⟩)
      | H5I_type_t.H5I_REFERENCE => (Except.ok 0, ⟨s1, w.log ++ [Call.H5Iget_type obj]⟩)
      | H5I_type_t.H5I_OTHER _ => (Except.ok (-1), ⟨s1, w.log ++ [Call.H5Iget_type obj]⟩) := by
  cases k <;> simp [close_object, bind, M.bind, prim, pure, M.pure, hk]

/-- Witness of C1 on the handle-table engine: closing the open group 2. -/
theorem close_object_dispatch_witness :
    (tableEngine kindOfId 4 0).H5Iget_type 2 [1, 2] = (H5I_type_t.H5I_GROUP, [1, 2])
    ∧ close_object (tableEngine kindOfId 4 0) 2 ⟨[1, 2], []⟩
        = (Except.ok 0, ⟨[1], [Call.H5Iget_type 2, Call.H5Gclose 2]⟩) :=
  ⟨rfl, close_object_dispatch (tableEngine kindOfId 4 0) 2 ⟨[1, 2], []⟩
    H5I_type_t.H5I_GROUP [1, 2] rfl⟩

/-- C6: `open_datatype` raises "type does not have a datatype" (the Unsupported
error) exactly when the runtime kind is neither Attribute nor Dataset; for an
Attribute it returns exactly the result of the attribute-datatype primitive and
for a Dataset exactly that of the dataset-datatype primitive.  `open_dataspace`
has the same shape with the attribute-dataspace and dataset-dataspace
primitives and the error "type does not have a dataspace". -/
theorem open_datatype_dataspace_dispatch {σ : Type} (E : Engine σ) (obj_id : hid_t)
    (w : World σ) (k : H5I_type_t) (s1 : σ) (hk : E.H5Iget_type obj_id w.st = (k, s1)) :
    (((open_datatype E obj_id w).1
          = Except.error (Exn.runtime_error "type does not have a datatype")
        ↔ k ≠ H5I_type_t.H5I_ATTR ∧ k ≠ H5I_type_t.H5I_DATASET)
      ∧ ((∃ e, (open_datatype E obj_id w).1 = Except.error e)
        ↔ k ≠ H5I_type_t.H5I_ATTR ∧ k ≠ H5I_type_t.H5I_DATASET)
      ∧ (k = H5I_type_t.H5I_ATTR → open_datatype E obj_id w =
          (Except.ok (E.H5Aget_type obj_id s1).1,
            ⟨(E.H5Aget_type obj_id s1).2,
              w.log ++ [Call.H5Iget_type obj_id] ++ [Call.H5Aget_type obj_id]⟩))
      ∧ (k = H5I_type_t.H5I_DATASET → open_datatype E obj_id w =
          (Except.ok (E.H5Dget_type obj_id s1).1,
            ⟨(E.H5Dget_type obj_id s1).2,
              w.log ++ [Call.H5Iget_type obj_id] ++ [Call.H5Dget_type obj_id]⟩)))
    ∧ (((open_dataspace E obj_id w).1
          = Except.error (Exn.runtime_error "type does not have a dataspace")
        ↔ k ≠ H5I_type_t.H5I_ATTR ∧ k ≠ H5I_type_t.H5I_DATASET)
      ∧ ((∃ e, (open_dataspace E obj_id w).1 = Except.error e)
        ↔ k ≠ H5I_type_t.H5I_ATTR ∧ k ≠ H5I_type_t.H5I_DATASET)
      ∧ (k = H5I_type_t.H5I_ATTR → open_dataspace E obj_id w =
          (Except.ok (E.H5Aget_space obj_id s1).1,
            ⟨(E.H5Aget_space obj_id s1).2,
              w.log ++ [Call.H5Iget_type obj_id] ++ [Call.H5Aget_space obj_id]⟩))
      ∧ (k = H5I_type_t.H5I_DATASET → open_dataspace E obj_id w =
          (Except.ok (E.H5Dget_space obj_id s1).1,
            ⟨(E.H5Dget_space obj_id s1).2,
              w.log ++ [Call.H5Iget_type obj_id] ++ [Call.H5Dget_space obj_id]⟩))) := by
  cases k <;>
    simp [open_datatype, open_dataspace, get_object_type, bind, M.bind, prim, M.throw, hk]

/-- Witness of C6 on the handle-table engine: the datatype of the attribute 6 is
the fresh identifier 7. -/
theorem open_datatype_dataspace_dispatch_witness :
    (tableEngine kindOfId 4 0).H5Iget_type 6 [6] = (H5I_type_t.H5I_ATTR, [6])
    ∧ open_datatype (tableEngine kindOfId 4 0) 6 ⟨[6], []⟩
        = (Except.ok 7, ⟨[7, 6], [Call.H5Iget_type 6, Call.H5Aget_type 6]⟩) :=
  ⟨rfl, (open_datatype_dataspace_dispatch (tableEngine kindOfId 4 0) 6 ⟨[6], []⟩
    H5I_type_t.H5I_ATTR [6] rfl).1.2.2.1 rfl⟩

/-- C7: `read_data` raises "type does not have data" (the Unsupported error)
exactly when the runtime kind is neither Attribute nor Dataset, and then the
kind query is the only primitive called; for an Attribute it returns exactly the
result of the attribute-read primitive on (handle, datatype, buffer); for a
Dataset exactly the result of the dataset-read primitive called with `H5S_ALL`
as memory and as file selection and `H5P_DEFAULT` as transfer properties. -/
theorem read_data_dispatch {σ : Type} (E : Engine σ) (obj_id datatype_id : hid_t) (buf : CBuf)
    (w : World σ) (k : H5I_type_t) (s1 : σ) (hk : E.H5Iget_type obj_id w.st = (k, s1)) :
    ((read_data E obj_id datatype_id buf w).1
        = Except.error (Exn.runtime_error "type does not have data")
      ↔ k ≠ H5I_type_t.H5I_ATTR ∧ k ≠ H5I_type_t.H5I_DATASET)
    ∧ ((∃ e, (read_data E obj_id datatype_id buf w).1 = Except.error e)
      ↔ k ≠ H5I_type_t.H5I_ATTR ∧ k ≠ H5I_type_t.H5I_DATASET)
    ∧ (k ≠ H5I_type_t.H5I_ATTR ∧ k ≠ H5I_type_t.H5I_DATASET →
        (read_data E obj_id datatype_id buf w).2 = ⟨s1, w.log ++ [Call.H5Iget_type obj_id]⟩)
    ∧ (k = H5I_type_t.H5I_ATTR → read_data E obj_id datatype_id buf w =
        (Except.ok (E.H5Aread obj_id datatype_id buf s1).1,
          ⟨(E.H5Aread obj_id datatype_id buf s1).2,
            w.log ++ [Call.H5Iget_type obj_id] ++ [Call.H5Aread obj_id datatype_id buf]⟩))
    ∧ (k = H5I_type_t.H5I_DATASET → read_data E obj_id datatype_id buf w =
        (Except.ok (E.H5Dread obj_id datatype_id H5S_ALL H5S_ALL H5P_DEFAULT buf s1).1,
          ⟨(E.H5Dread obj_id datatype_id H5S_ALL H5S_ALL H5P_DEFAULT buf s1).2,
            w.log ++ [Call.H5Iget_type obj_id]
              ++ [Call.H5Dread obj_id datatype_id H5S_ALL H5S_ALL H5P_DEFAULT buf]⟩)) := by
  cases k <;>
    simp [read_data, get_object_type, bind, M.bind, prim, M.throw, hk]

/-- Witness of C7 on the handle-table engine: reading the dataset 5 into a
two-byte buffer. -/
theorem read_data_dispatch_witness :
    (tableEngine kindOfId 4 0).H5Iget_type 5 [5] = (H5I_type_t.H5I_DATASET, [5])
    ∧ read_data (tableEngine kindOfId 4 0) 5 9 [0, 0] ⟨[5], []⟩
        = (Except.ok (0, [42, 0]),
            ⟨[5], [Call.H5Iget_type 5, Call.H5Dread 5 9 0 0 0 [0, 0]]⟩) :=
  ⟨rfl, (read_data_dispatch (tableEngine kindOfId 4 0) 5 9 [0, 0] ⟨[5], []⟩
    H5I_type_t.H5I_DATASET [5] rfl).2.2.2.2 rfl⟩

/-! ## Names -/

/-- C5, counterexample: on the handle-table engine the generic naming primitive
answers -1 for the group 2, and `get_name` returns that -1 normally: no error is
raised. -/
theorem get_name_negative_returned :
    ((tableEngine kindOfId 4 0).H5Iget_name 2 none 0 [2]).1.1 = -1
    ∧ get_name (tableEngine kindOfId 4 0) 2 none 0 ⟨[2], []⟩
        = (Except.ok (-1, []), ⟨[2], [Call.H5Iget_type 2, Call.H5Iget_name 2 none 0]⟩) :=
  ⟨rfl, rfl⟩

/-- C5, amended: `get_name` never raises; it returns exactly the result of the
length query, negative values included: the attribute-naming primitive when the
kind is Attribute, the generic object-naming primitive for every other kind. -/
theorem get_name_passthrough {σ : Type} (E : Engine σ) (id : hid_t) (name : Option CBuf)
    (size : size_t) (w : World σ) (k : H5I_type_t) (s1 : σ)
    (hk : E.H5Iget_type id w.st = (k, s1)) :
    (k = H5I_type_t.H5I_ATTR → get_name E id name size w =
        (Except.ok (E.H5Aget_name id size name s1).1,
          ⟨(E.H5Aget_name id size name s1).2,
            w.log ++ [Call.H5Iget_type id] ++ [Call.H5Aget_name id size name]⟩))
    ∧ (k ≠ H5I_type_t.H5I_ATTR → get_name E id name size w =
        (Except.ok (E.H5Iget_name id name size s1).1,
          ⟨(E.H5Iget_name id name size s1).2,
            w.log ++ [Call.H5Iget_type id] ++ [Call.H5Iget_name id name size]⟩))
    ∧ ∀ e, (get_name E id name size w).1 ≠ Except.error e := by
  by_cases h : k = H5I_type_t.H5I_ATTR <;>
    simp [get_name, get_object_type, bind, M.bind, prim, hk, h]

/-- Witness of the amended C5 on the handle-table engine: the attribute 6 has a
name of length 5. -/
theorem get_name_passthrough_witness :
    (tableEngine kindOfId 4 0).H5Iget_type 6 [6] = (H5I_type_t.H5I_ATTR, [6])
    ∧ get_name (tableEngine kindOfId 4 0) 6 none 0 ⟨[6], []⟩
        = (Except.ok (5, []), ⟨[6], [Call.H5Iget_type 6, Call.H5Aget_name 6 0 none]⟩) :=
  ⟨rfl, (get_name_passthrough (tableEngine kindOfId 4 0) 6 none 0 ⟨[6], []⟩
    H5I_type_t.H5I_ATTR [6] rfl).1 rfl⟩

/-- C9, failing input: the container 0 has one child and index 1 is out of
range; the lookup answers -1 and `get_child_name` returns -1 to its caller
instead of raising. -/
theorem get_child_name_returns_negative :
    (fileEngine.H5Lget_name_by_idx 0 1 none 0 ⟨[Node.group [([120], Node.dataset)]]⟩).1.1 = -1
    ∧ get_child_name fileEngine 0 1 none 0 ⟨⟨[Node.group [([120], Node.dataset)]]⟩, []⟩
        = (Except.ok (-1, []),
            ⟨⟨[Node.group [([120], Node.dataset)]]⟩, [Call.H5Lget_name_by_idx 0 1 none 0]⟩) :=
  ⟨rfl, rfl⟩

/-! ## Children -/

/-- C2: `open_child` returns a handle exactly when the length query (null
destination, capacity 0) is non-negative, the second lookup into a zero-filled
buffer of length+1 bytes is non-negative, the object-info query for the fetched
name succeeds, the reported type is Group or Dataset and the matching open
primitive, called with that same name, returns a non-negative identifier; the
handle is that identifier, so it is never negative.  In every other case an
error is raised, and it is "Unknown type of object" exactly when the three
queries succeed and the type is neither Group nor Dataset. -/
theorem open_child_spec {σ : Type} (E : Engine σ) (loc_id : hid_t) (idx : hsize_t)
    (w : World σ)
    (len1 : ssize_t) (b1 : CBuf) (s1 : σ)
    (hq1 : E.H5Lget_name_by_idx loc_id idx none 0 w.st = ((len1, b1), s1))
    (len2 : ssize_t) (name : CBuf) (s2 : σ)
    (hq2 : E.H5Lget_name_by_idx loc_id idx (some (List.replicate (len1.toNat + 1) 0))
      (len1.toNat + 1) s1 = ((len2, name), s2))
    (ret : herr_t) (info : H5O_info_t) (s3 : σ)
    (hq3 : E.H5Oget_info_by_name loc_id name s2 = ((ret, info), s3))
    (g : hid_t) (sg : σ) (hg : E.H5Gopen2 loc_id name s3 = (g, sg))
    (d : hid_t) (sd : σ) (hd : E.H5Dopen2 loc_id name s3 = (d, sd)) :
    (∀ h, (open_child E loc_id idx w).1 = Except.ok h ↔
        (0 ≤ len1 ∧ 0 ≤ len2 ∧ 0 ≤ ret)
        ∧ ((info.type = H5O_type_t.H5O_TYPE_GROUP ∧ 0 ≤ g ∧ h = g)
          ∨ (info.type = H5O_type_t.H5O_TYPE_DATASET ∧ 0 ≤ d ∧ h = d)))
    ∧ (∀ h, (open_child E loc_id idx w).1 = Except.ok h → 0 ≤ h)
    ∧ (∀ h, (open_child E loc_id idx w).1 = Except.ok h →
        (info.type = H5O_type_t.H5O_TYPE_GROUP → (open_child E loc_id idx w).2 =
          ⟨sg, w.log ++ [Call.H5Lget_name_by_idx loc_id idx none 0,
            Call.H5Lget_name_by_idx loc_id idx (some (List.replicate (len1.toNat + 1) 0))
              (len1.toNat + 1),
            Call.H5Oget_info_by_name loc_id name, Call.H5Gopen2 loc_id name]⟩)
        ∧ (info.type = H5O_type_t.H5O_TYPE_DATASET → (open_child E loc_id idx w).2 =
          ⟨sd, w.log ++ [Call.H5Lget_name_by_idx loc_id idx none 0,
            Call.H5Lget_name_by_idx loc_id idx (some (List.replicate (len1.toNat + 1) 0))
              (len1.toNat + 1),
            Call.H5Oget_info_by_name loc_id name, Call.H5Dopen2 loc_id name]⟩))
    ∧ ((∀ h, (open_child E loc_id idx w).1 ≠ Except.ok h) →
        ∃ e, (open_child E loc_id idx w).1 = Except.error e)
    ∧ ((open_child E loc_id idx w).1 = Except.error (Exn.runtime_error "Unknown type of object")
        ↔ (0 ≤ len1 ∧ 0 ≤ len2 ∧ 0 ≤ ret)
          ∧ info.type ≠ H5O_type_t.H5O_TYPE_GROUP ∧ info.type ≠ H5O_type_t.H5O_TYPE_DATASET) := by
  by_cases h1 : len1 < 0
  · have h1' : ¬ 0 ≤ len1 := not_le.mpr h1
    simp [open_child, bind, M.bind, prim, M.throw, hq1, h1, h1']
  · have h1' : 0 ≤ len1 := not_lt.mp h1
    by_cases h2 : len2 < 0
    · have h2' : ¬ 0 ≤ len2 := not_le.mpr h2
      simp [open_child, bind, M.bind, prim, M.throw, hq1, hq2, h1, h1', h2, h2']
    · have h2' : 0 ≤ len2 := not_lt.mp h2
      by_cases h3 : ret < 0
      · have h3' : ¬ 0 ≤ ret := not_le.mpr h3
        simp [open_child, bind, M.bind, prim, M.throw, hq1, hq2, hq3, h1, h1', h2, h2', h3, h3']
      · have h3' : 0 ≤ ret := not_lt.mp h3
        rcases info with ⟨ty, na⟩
        cases ty
        · simp [open_child, bind, M.bind, prim, M.throw, hq1, hq2, hq3, h1, h1', h2, h2', h3, h3']
        · by_cases h4 : g < 0
          · have h4' : ¬ 0 ≤ g := not_le.mpr h4
            simp [open_child, bind, M.bind, prim, M.throw, hq1, hq2, hq3, hg, h1, h1', h2, h2',
              h3, h3', h4, h4']
          · have h4' : 0 ≤ g := not_lt.mp h4
            simp [open_child, bind, M.bind, prim, M.throw, pure, M.pure, hq1, hq2, hq3, hg, h1, h1',
              h2, h2', h3, h3', h4, h4']
            exact fun h => eq_comm
        · by_cases h4 : d < 0
          · have h4' : ¬ 0 ≤ d := not_le.mpr h4
            simp [open_child, bind, M.bind, prim, M.throw, hq1, hq2, hq3, hd, h1, h1', h2, h2',
              h3, h3', h4, h4']
          · have h4' : 0 ≤ d := not_lt.mp h4
            simp [open_child, bind, M.bind, prim, M.throw, pure, M.pure, hq1, hq2, hq3, hd, h1, h1',
              h2, h2', h3, h3', h4, h4']
            exact fun h => eq_comm
        · simp [open_child, bind, M.bind, prim, M.throw, hq1, hq2, hq3, h1, h1', h2, h2', h3, h3']
        · simp [open_child, bind, M.bind, prim, M.throw, hq1, hq2, hq3, h1, h1', h2, h2', h3, h3']

/-! ## Children of the file engine -/

theorem to_ssize_t_le (n : Nat) : to_ssize_t n ≤ (n : Int) := by
  show (((n + 2 ^ 63) % 2 ^ 64 : Nat) : Int) - 2 ^ 63 ≤ (n : Int)
  omega

theorem fillName_exact (nm : CBuf) :
    fillName (List.replicate (nm.length + 1) 0) (nm.length + 1) nm = nm ++ [0] := by
  simp [fillName]

theorem cstr_terminated (nm : CBuf) (h : 0 ∉ nm) : cstr (nm ++ [0]) = nm := by
  induction nm with
  | nil => simp [cstr]
  | cons a t ih =>
    have ha : a ≠ 0 := fun e => h (by simp [e])
    have ht : 0 ∉ t := fun e => h (by simp [e])
    have := ih ht
    simp only [cstr] at this ⊢
    simp only [List.cons_append, List.takeWhile_cons, ha, ne_eq, not_false_eq_true, decide_True,
      ite_true]
    rw [this]

theorem findLink_of_getElem (links : List (CBuf × Node)) (i : Nat) (l : CBuf × Node)
    (hnd : (links.map Prod.fst).Nodup) (hl : links[i]? = some l) :
    findLink links l.1 = some l.2 := by
  induction links generalizing i with
  | nil => simp at hl
  | cons a t ih =>
    simp only [List.map_cons, List.nodup_cons] at hnd
    cases i with
    | zero =>
      simp at hl
      subst hl
      simp [findLink]
    | succ j =>
      simp at hl
      have hmem : l ∈ t := List.getElem?_mem hl
      have hne : a.1 ≠ l.1 := fun e => hnd.1 (e ▸ List.mem_map_of_mem Prod.fst hmem)
      have := ih j hnd.2 hl
      simp only [findLink] at this ⊢
      simp [List.find?_cons, hne, this]

/-- C3, counterexample: the container 0 of the file engine has one child, a
named datatype; `get_num_children` reports 1, index 0 is in range, and
`open_child` raises "Unknown type of object". -/
theorem open_child_named_datatype_fails :
    (get_num_children fileEngine 0
        ⟨⟨[Node.group [([116], Node.named_datatype)]]⟩, []⟩).1 = Except.ok 1
    ∧ (open_child fileEngine 0 0 ⟨⟨[Node.group [([116], Node.named_datatype)]]⟩, []⟩).1
        = Except.error (Exn.runtime_error "Unknown type of object") :=
  ⟨rfl, rfl⟩

/-- C3, amended: in the file engine, for a container whose child names are
pairwise different and free of NUL, and for every index below the count that
`get_num_children` reports, if the child at that index is a group or a dataset
then `open_child` succeeds and the handle it returns has kind Container or
Dataset. -/
theorem open_child_in_range (s : FileState) (log : List Call) (C : hid_t)
    (links : List (CBuf × Node)) (i : hsize_t) (n : ssize_t)
    (hC : s.linksAt C = some links) (hwf : WellFormedLinks links)
    (hn : (get_num_children fileEngine C ⟨s, log⟩).1 = Except.ok n)
    (hi : (i : Int) < n)
    (hty : ∀ l, links[i]? = some l →
      l.2.otype = H5O_type_t.H5O_TYPE_GROUP ∨ l.2.otype = H5O_type_t.H5O_TYPE_DATASET) :
    ∃ h, (open_child fileEngine C i ⟨s, log⟩).1 = Except.ok h
      ∧ ((fileEngine.H5Iget_type h (open_child fileEngine C i ⟨s, log⟩).2.st).1
            = H5I_type_t.H5I_GROUP
        ∨ (fileEngine.H5Iget_type h (open_child fileEngine C i ⟨s, log⟩).2.st).1
            = H5I_type_t.H5I_DATASET) := by
  have hlen : to_ssize_t links.length = n := by
    simpa [get_num_children, bind, M.bind, prim, fileEngine, hC, pure, M.pure] using hn
  have hi' : i < links.length := by
    have hlt : (i : Int) < (links.length : Int) :=
      lt_of_lt_of_le (hlen ▸ hi) (to_ssize_t_le links.length)
    exact_mod_cast hlt
  have hpos : ∀ k : Nat, ¬ ((k : Int) < 0) := fun k => by omega
  have hl : links[i]? = some links[i] := List.getElem?_eq_getElem hi'
  generalize links[i] = l at hl
  rcases l with ⟨nm, nd⟩
  have h0 : 0 ∉ nm := hwf.2 _ (List.getElem?_mem hl)
  have hfind : findLink links nm = some nd := findLink_of_getElem links i (nm, nd) hwf.1 hl
  refine ⟨(s.objects.length : Int), ?_, ?_⟩
  · rcases hty _ hl with hg | hd
    · cases nd <;> simp [Node.otype] at hg
      simp [open_child, bind, M.bind, prim, fileEngine, fileLookupName, fileInfoByName, fileOpen,
        hC, hl, hpos, M.throw, fillName_exact, cstr_terminated, h0, hfind, Node.otype, pure, M.pure]
    · cases nd <;> simp [Node.otype] at hd
      simp [open_child, bind, M.bind, prim, fileEngine, fileLookupName, fileInfoByName, fileOpen,
        hC, hl, hpos, M.throw, fillName_exact, cstr_terminated, h0, hfind, Node.otype, pure, M.pure]
  · rcases hty _ hl with hg | hd
    · cases nd <;> simp [Node.otype] at hg
      simp [open_child, bind, M.bind, prim, fileEngine, fileLookupName, fileInfoByName, fileOpen,
        hC, hl, hpos, M.throw, fillName_exact, cstr_terminated, h0, hfind, Node.otype, pure, M.pure,
        FileState.nodeAt, Node.kind]
    · cases nd <;> simp [Node.otype] at hd
      simp [open_child, bind, M.bind, prim, fileEngine, fileLookupName, fileInfoByName, fileOpen,
        hC, hl, hpos, M.throw, fillName_exact, cstr_terminated, h0, hfind, Node.otype, pure, M.pure,
        FileState.nodeAt, Node.kind]

/-- Witness of the amended C3: the container 0 has the single child "x", a
dataset; index 0 is below the reported count 1. -/
theorem open_child_in_range_witness :
    ∃ h, (open_child fileEngine 0 0 ⟨⟨[Node.group [([120], Node.dataset)]]⟩, []⟩).1
        = Except.ok h
      ∧ ((fileEngine.H5Iget_type h
            (open_child fileEngine 0 0 ⟨⟨[Node.group [([120], Node.dataset)]]⟩, []⟩).2.st).1
            = H5I_type_t.H5I_GROUP
        ∨ (fileEngine.H5Iget_type h
            (open_child fileEngine 0 0 ⟨⟨[Node.group [([120], Node.dataset)]]⟩, []⟩).2.st).1
            = H5I_type_t.H5I_DATASET) :=
  open_child_in_range ⟨[Node.group [([120], Node.dataset)]]⟩ [] 0 [([120], Node.dataset)] 0 1
    rfl (by simp [WellFormedLinks]) rfl (by decide)
    (by
      intro l hl
      simp at hl
      subst hl
      exact Or.inr rfl)

/-- Witness of C2 on the file engine: the child "x" of the container 0 is a
dataset and is opened under the identifier 1. -/
theorem open_child_spec_witness :
    (open_child fileEngine 0 0 ⟨⟨[Node.group [([120], Node.dataset)]]⟩, []⟩).1 = Except.ok 1 :=
  ((open_child_spec fileEngine 0 0 ⟨⟨[Node.group [([120], Node.dataset)]]⟩, []⟩
    1 [] ⟨[Node.group [([120], Node.dataset)]]⟩ rfl
    1 [120, 0] ⟨[Node.group [([120], Node.dataset)]]⟩ rfl
    0 ⟨H5O_type_t.H5O_TYPE_DATASET, 0⟩ ⟨[Node.group [([120], Node.dataset)]]⟩ rfl
    (-1) ⟨[Node.group [([120], Node.dataset)]]⟩ rfl
    1 ⟨[Node.group [([120], Node.dataset)], Node.dataset]⟩ rfl).1 1).mpr
    ⟨⟨by decide, by decide, by decide⟩, Or.inr ⟨rfl, by decide, rfl⟩⟩

/-! ## Attribute count -/

/-- C8, counterexample: the engine reports success and 2^31 attributes for the
open object 5; `get_num_attrs` returns -2^31, not the reported count. -/
theorem get_num_attrs_wraps :
    (tableEngine kindOfId 4 2147483648).H5Oget_info 5 [5]
        = ((0, ⟨H5O_type_t.H5O_TYPE_DATASET, 2147483648⟩), [5])
    ∧ (get_num_attrs (tableEngine kindOfId 4 2147483648) 5 ⟨[5], []⟩).1
        = Except.ok (-2147483648) :=
  ⟨rfl, rfl⟩

/-- C8, amended: `get_num_attrs` fails, with "H5Oget_info failed", exactly when
the object-info query reports a negative status; otherwise it returns the
reported attribute count narrowed to a signed 32-bit integer: the value in
[-2^31, 2^31) congruent to the count modulo 2^32, which is the count itself
whenever the count is below 2^31. -/
theorem get_num_attrs_spec {σ : Type} (E : Engine σ) (loc_id : hid_t) (w : World σ)
    (ret : herr_t) (info : H5O_info_t) (s1 : σ)
    (hq : E.H5Oget_info loc_id w.st = ((ret, info), s1)) :
    ((get_num_attrs E loc_id w).1 = Except.error (Exn.runtime_error "H5Oget_info failed")
        ↔ ret < 0)
    ∧ ((∃ e, (get_num_attrs E loc_id w).1 = Except.error e) ↔ ret < 0)
    ∧ (0 ≤ ret → ∃ v : Int, (get_num_attrs E loc_id w).1 = Except.ok v
        ∧ -2 ^ 31 ≤ v ∧ v < 2 ^ 31 ∧ (v - (info.num_attrs : Int)) % 2 ^ 32 = 0
        ∧ (info.num_attrs < 2 ^ 31 → v = (info.num_attrs : Int))) := by
  by_cases h : ret < 0
  · have h' : ¬ 0 ≤ ret := not_le.mpr h
    simp [get_num_attrs, bind, M.bind, prim, M.throw, hq, h, h']
  · have h' : 0 ≤ ret := not_lt.mp h
    simp only [get_num_attrs, bind, M.bind, prim, M.throw, pure, M.pure, hq, h, h', if_false,
      false_iff, iff_false, not_exists, forall_true_left]
    refine ⟨by simp, by simp, to_int info.num_attrs, rfl, ?_, ?_, ?_, ?_⟩
    · show -2 ^ 31 ≤ (((info.num_attrs + 2 ^ 31) % 2 ^ 32 : Nat) : Int) - 2 ^ 31
      omega
    · show (((info.num_attrs + 2 ^ 31) % 2 ^ 32 : Nat) : Int) - 2 ^ 31 < 2 ^ 31
      omega
    · show ((((info.num_attrs + 2 ^ 31) % 2 ^ 32 : Nat) : Int) - 2 ^ 31
        - (info.num_attrs : Int)) % 2 ^ 32 = 0
      have hm := Nat.div_add_mod (info.num_attrs + 2 ^ 31) (2 ^ 32)
      have e : (((info.num_attrs + 2 ^ 31) % 2 ^ 32 : Nat) : Int) - 2 ^ 31 - (info.num_attrs : Int)
          = (-(((info.num_attrs + 2 ^ 31) / 2 ^ 32 : Nat) : Int)) * 4294967296 := by omega
      rw [e]
      exact Int.mul_emod_left _ _
    · intro hlt
      have hlt' : @LT.lt Nat _ info.num_attrs (2 ^ 31) := hlt
      show (((info.num_attrs + 2 ^ 31) % 2 ^ 32 : Nat) : Int) - 2 ^ 31 = (info.num_attrs : Int)
      omega

/-- Witness of the amended C8 on the handle-table engine: the open object 5 has
3 attributes. -/
theorem get_num_attrs_spec_witness :
    (tableEngine kindOfId 4 3).H5Oget_info 5 [5] = ((0, ⟨H5O_type_t.H5O_TYPE_DATASET, 3⟩), [5])
    ∧ ∃ v : Int, (get_num_attrs (tableEngine kindOfId 4 3) 5 ⟨[5], []⟩).1 = Except.ok v
        ∧ -2 ^ 31 ≤ v ∧ v < 2 ^ 31 ∧ (v - ((3 : Nat) : Int)) % 2 ^ 32 = 0
        ∧ ((3 : Nat) < 2 ^ 31 → v = ((3 : Nat) : Int)) :=
  ⟨rfl, (get_num_attrs_spec (tableEngine kindOfId 4 3) 5 ⟨[5], []⟩ 0
    ⟨H5O_type_t.H5O_TYPE_DATASET, 3⟩ [5] rfl).2.2 (by decide)⟩

/-! ## Native size -/

/-- C4, failing input: on the handle-table engine whose size query answers 0,
with the datatype 3 open, the conversion opens the transient handle 4, the size
query reports 0 and `get_datatype_native_size` raises "H5Tget_size failed"; no
release was called and the handle 4 stays open: the open set grew from [3]
to [4, 3]. -/
theorem get_datatype_native_size_leaks :
    get_datatype_native_size (tableEngine kindOfId 0 0) 3 ⟨[3], []⟩
      = (Except.error (Exn.runtime_error "H5Tget_size failed"),
          ⟨[4, 3], [Call.H5Tget_native_type 3, Call.H5Tget_size 4]⟩) :=
  rfl

end hdf5
end think
